import Mathlib

/-!
Verification of the GsCore adapter plugin (napcat-plugin-gscore-adapter).

This file shallowly embeds the connection-lifecycle manager and the
bidirectional message translator of `GScoreService`
(src/services/gscore-service.ts) together with the small pieces of
configuration state they read, and proves the specification claims about
them.

Modelling conventions:
* JavaScript strings are Lean `String`s; the handful of string operations
  the source uses (`startsWith`, `includes`, `slice`, `replace` of a
  guarded prefix, `toLowerCase`, `trim`, `indexOf`) are implemented here
  by structural recursion on the character list so that every definition
  is executable and kernel-reducible.
* `null`/`undefined` become `Option`, and JavaScript truthiness on strings
  (where the empty string is falsy) is modelled explicitly (`jsOrStr`,
  `jsOrOptStr`, `optFalsy`).
* The WebSocket transport is modelled by its observable effects: `connect`
  reports the URL it would open a transport on, `disconnect` reports
  whether it closed a live socket and cancelled a pending timer, and the
  `open`/`message`/`close` handlers and the reconnect timer become
  explicit transition functions on the service state.  The WHATWG `URL`
  normalisation performed by `new URL(url).toString()` is not modelled
  beyond the query-parameter handling the source relies on
  (`searchParams.has('token')` / `searchParams.append`), which is decided
  on the URL string itself.
* Platform send calls (`ctx.actions.call('send_msg', ...)`) and log calls
  become data: `handleGsCoreMessage` returns the list of send calls it
  issues and the list of log lines it emits.
-/

namespace GScore

/-! ### Character-list string helpers (JavaScript string operations) -/

/-- `csStartsWith hay pat`: `hay` begins with `pat` (character lists). -/
def csStartsWith : List Char → List Char → Bool
  | _, [] => true
  | [], _ :: _ => false
  | a :: as, b :: bs => a = b && csStartsWith as bs

/-- Substring search on character lists: does `pat` occur anywhere in the list? -/
def csContainsAux : List Char → List Char → Bool
  | [], pat => pat.isEmpty
  | h :: t, pat => csStartsWith (h :: t) pat || csContainsAux t pat

/-- JavaScript `s.includes(pat)`. -/
def jsContains (s pat : String) : Bool := csContainsAux s.data pat.data

/-- JavaScript `s.startsWith(pat)`. -/
def jsStartsWith (s pat : String) : Bool := csStartsWith s.data pat.data

/-- JavaScript `s.endsWith(c)` for a single character `c`. -/
def jsEndsWithChar (s : String) (c : Char) : Bool := s.data.getLast? = some c

/-- JavaScript `s.slice(0, -1)`: drop the last character. -/
def jsDropLast (s : String) : String := String.mk s.data.dropLast

/-- JavaScript `s.substring(n)` / dropping a guarded prefix of `n` characters. -/
def jsDrop (s : String) (n : Nat) : String := String.mk (s.data.drop n)

/-- JavaScript `s.toLowerCase()` (ASCII case folding, as used by the source). -/
def jsToLower (s : String) : String := String.mk (s.data.map Char.toLower)

/-- JavaScript `s.trim()`. -/
def jsTrim (s : String) : String :=
  String.mk (((s.data.dropWhile Char.isWhitespace).reverse.dropWhile Char.isWhitespace).reverse)

/-- Split at the first occurrence of character `c`: returns the parts before
and after it, or `none` when `c` does not occur (`indexOf` returning -1). -/
def csSplitFirst (c : Char) : List Char → Option (List Char × List Char)
  | [] => none
  | h :: t =>
    if h = c then some ([], t)
    else (csSplitFirst c t).map (fun p => (h :: p.1, p.2))

/-- Split on every occurrence of character `c` (like `String.prototype.split`). -/
def csSplitAll (c : Char) : List Char → List (List Char)
  | [] => [[]]
  | h :: t =>
    if h = c then [] :: csSplitAll c t
    else
      match csSplitAll c t with
      | [] => [[h]]
      | p :: ps => (h :: p) :: ps

/-- The part of a character list before the first occurrence of `c` (the whole
list when `c` does not occur). -/
def csCutAt (c : Char) (l : List Char) : List Char :=
  match csSplitFirst c l with
  | some p => p.1
  | none => l

/-- JavaScript `a || b` on a string `a`: the empty string is falsy. -/
def jsOrStr (a b : String) : String := if a = "" then b else a

/-- JavaScript `a || b` where `a` is a possibly-absent string attribute. -/
def jsOrOptStr (a : Option String) (b : String) : String :=
  match a with
  | some s => if s = "" then b else s
  | none => b

/-- JavaScript `a || b` where both operands are possibly-absent strings and the
result is used under a `typeof === 'string'` check. -/
def jsOrOpt (a b : Option String) : Option String :=
  match a with
  | some s => if s = "" then b else some s
  | none => b

/-- JavaScript falsiness of a nullable string value (`!v`): true for
`null`/`undefined` and for the empty string. -/
def optFalsy : Option String → Bool
  | none => true
  | some s => s = ""

/-- JavaScript truthiness of a nullable string (`v ? e1 : e2` on ids). -/
def optTruthy (o : Option String) : Option String :=
  match o with
  | some s => if s = "" then none else some s
  | none => none

/-! ### Plugin configuration

The fields of `pluginState.config` read by `GScoreService`
(src/core/state.ts, src/config).  `maxReconnectAttempts` and
`reconnectInterval` are accessed with `??`, so absence (`undefined`) is
modelled as `none`; the string fields are accessed with `||`. -/

structure PluginConfig where
  gscoreEnable : Bool
  gscoreUrl : String
  gscoreToken : String
  maxReconnectAttempts : Option Nat
  reconnectInterval : Option Nat
deriving DecidableEq

/-- `pluginState.config.maxReconnectAttempts ?? 10`. -/
def maxAttemptsOf (cfg : PluginConfig) : Nat := cfg.maxReconnectAttempts.getD 10

/-- `pluginState.config.reconnectInterval ?? 5000`. -/
def intervalOf (cfg : PluginConfig) : Nat := cfg.reconnectInterval.getD 5000

/-! ### Socket URL derivation (`connect`, lines 58-77) -/

/-- Lines 61-63: `if (url.endsWith('/')) url = url.slice(0, -1);`. -/
def stripTrailingSlash (url : String) : String :=
  if jsEndsWithChar url '/' then jsDropLast url else url

/-- The query string of a URL: the part after the first `?` that precedes the
fragment part (everything from the first `#` on is fragment). -/
def queryOf (url : String) : List Char :=
  match csSplitFirst '?' (csCutAt '#' url.data) with
  | some p => p.2
  | none => []

/-- `new URL(url).searchParams.has('token')`: some `&`-separated entry of the
query string has key `token` (the key is the part before the first `=`). -/
def hasTokenParam (url : String) : Bool :=
  (csSplitAll '&' (queryOf url)).any (fun p => csCutAt '=' p = "token".data)

/-- `wsUrl.searchParams.append('token', token)` followed by `toString()`:
the pair is appended to the query string (creating one when absent). -/
def appendTokenParam (url token : String) : String :=
  if url.data.contains '?' then url ++ "&token=" ++ token
  else url ++ "?token=" ++ token

/-- The socket URL built by `connect` (lines 58-77): base URL (or default),
one trailing slash stripped, `/ws/napcat` appended when the string `/ws/`
does not occur in the URL, and the configured token appended as a `token`
query parameter when it is non-empty and the query has no `token` key yet. -/
def buildWsUrl (cfg : PluginConfig) : String :=
  let url0 := jsOrStr cfg.gscoreUrl "ws://localhost:8765"
  let url1 := stripTrailingSlash url0
  let url2 := if jsContains url1 "/ws/" then url1 else url1 ++ "/ws/napcat"
  let token := jsOrStr cfg.gscoreToken ""
  if token ≠ "" ∧ hasTokenParam url2 = false then appendTokenParam url2 token
  else url2

/-! ### Connection state machine -/

/-- The `readyState` of a stored WebSocket handle: the service only ever holds
a socket that is still connecting or open (the close handler and
`disconnect` both null the handle). -/
inductive WsReady : Type where
  | connecting : WsReady
  | opened : WsReady
deriving DecidableEq

/-- Result of `getStatus()`. -/
inductive ConnStatus : Type where
  | connected : ConnStatus
  | connecting : ConnStatus
  | disconnected : ConnStatus
deriving DecidableEq

/-- The mutable fields of `GScoreService`: the socket handle (with its ready
state), the `isConnecting` flag, the pending reconnect timer (carrying its
interval in milliseconds; `none` when no timer is pending), and the
reconnect-attempt counter. -/
structure ConnState where
  wsState : Option WsReady
  isConnecting : Bool
  reconnectTimer : Option Nat
  reconnectAttempts : Nat
deriving DecidableEq

/-- `getStatus()` (lines 43-47). -/
def getStatus (st : ConnState) : ConnStatus :=
  if st.wsState = some .opened then .connected
  else if st.isConnecting ∨ st.wsState = some .connecting then .connecting
  else .disconnected

/-- Effects of one `disconnect()` call (lines 127-138): the resulting state
plus whether a live socket was closed and whether a pending timer was
cancelled. -/
structure DisconnectOut where
  state : ConnState
  closedSocket : Bool
  cancelledTimer : Bool
deriving DecidableEq

/-- `disconnect()` (lines 127-138): cancel any pending timer, close and clear
the socket if present, clear `isConnecting`, reset the attempt counter. -/
def disconnect (st : ConnState) : DisconnectOut :=
  { state := { wsState := none, isConnecting := false,
               reconnectTimer := none, reconnectAttempts := 0 },
    closedSocket := st.wsState.isSome,
    cancelledTimer := st.reconnectTimer.isSome }

/-- Effects of one `connect()` call: the resulting state, the URL a new
transport was opened on (`none` when no transport was constructed), and the
disconnect effects when the disabled branch ran. -/
structure ConnectOut where
  state : ConnState
  opened : Option String
  closedSocket : Bool
  cancelledTimer : Bool
deriving DecidableEq

/-- `connect()` (lines 49-82): a full disconnect when the feature is disabled;
a no-op when the socket is open or `isConnecting` is set; otherwise set
`isConnecting` and construct a new WebSocket on the derived URL (the
constructor is modelled as succeeding, leaving a socket in the connecting
state). -/
def connect (cfg : PluginConfig) (st : ConnState) : ConnectOut :=
  if cfg.gscoreEnable = false then
    let d := disconnect st
    { state := d.state, opened := none,
      closedSocket := d.closedSocket, cancelledTimer := d.cancelledTimer }
  else if st.wsState = some .opened ∨ st.isConnecting = true then
    { state := st, opened := none, closedSocket := false, cancelledTimer := false }
  else
    { state := { st with isConnecting := true, wsState := some .connecting },
      opened := some (buildWsUrl cfg),
      closedSocket := false, cancelledTimer := false }

/-- How many transports one `connect()` call opened. -/
def opensCount (r : ConnectOut) : Nat := if r.opened.isSome then 1 else 0

/-- Result of one `scheduleReconnect()` call: the new state, the interval of
the one-shot timer it started (`none` when it did not start one), and
whether it reported the terminal attempts-exhausted error. -/
structure SchedOut where
  state : ConnState
  scheduled : Option Nat
  terminalError : Bool
deriving DecidableEq

/-- `scheduleReconnect()` (lines 140-161): no-op when the feature is disabled;
when `maxAttempts > 0` and the counter has reached it, report the terminal
error and schedule nothing; otherwise start a one-shot timer of the
configured interval. -/
def scheduleReconnect (cfg : PluginConfig) (st : ConnState) : SchedOut :=
  if cfg.gscoreEnable = false then { state := st, scheduled := none, terminalError := false }
  else if 0 < maxAttemptsOf cfg ∧ maxAttemptsOf cfg ≤ st.reconnectAttempts then
    { state := st, scheduled := none, terminalError := true }
  else
    { state := { st with reconnectTimer := some (intervalOf cfg) },
      scheduled := some (intervalOf cfg), terminalError := false }

/-- The `open` handler (lines 84-92): clear `isConnecting`, reset the attempt
counter, cancel any pending timer; the socket is now open. -/
def onOpen (st : ConnState) : ConnState :=
  { st with isConnecting := false, reconnectAttempts := 0,
            reconnectTimer := none, wsState := some .opened }

/-- The `close` handler (lines 113-118): clear `isConnecting`, null the socket
handle, then call `scheduleReconnect()`. -/
def onClose (cfg : PluginConfig) (st : ConnState) : SchedOut :=
  scheduleReconnect cfg { st with isConnecting := false, wsState := none }

/-- The reconnect timer firing (lines 157-160): the timer is no longer
pending, the attempt counter is incremented, and `connect()` runs. -/
def onTimerFire (cfg : PluginConfig) (st : ConnState) : ConnectOut :=
  connect cfg { st with reconnectTimer := none,
                        reconnectAttempts := st.reconnectAttempts + 1 }

/-- The transport/timer events that drive the reconnect loop. -/
inductive ConnEv : Type where
  | closeEv : ConnEv
  | fireEv : ConnEv
  | openEv : ConnEv
deriving DecidableEq

/-- One event step of the service state. -/
def stepEv (cfg : PluginConfig) (st : ConnState) : ConnEv → ConnState
  | .closeEv => (onClose cfg st).state
  | .fireEv => (onTimerFire cfg st).state
  | .openEv => onOpen st

/-- Run a sequence of events from a state. -/
def runEvs (cfg : PluginConfig) (st : ConnState) (evs : List ConnEv) : ConnState :=
  evs.foldl (stepEv cfg) st

/-! ### Core-protocol content (`GsCoreMessage`) -/

mutual

/-- The `data` payload of a Core content item: `null`/`undefined`, a string,
or (for `node` items) an array of nested content items. -/
inductive GsData : Type where
  | null : GsData
  | str : String → GsData
  | arr : List GsItem → GsData

/-- One Core content item `{ type, data }` (`GsCoreMessage` in the source;
`type` is `string | null`). -/
inductive GsItem : Type where
  | mk : Option String → GsData → GsItem

end

/-- The `type` field of a content item. -/
def GsItem.ty : GsItem → Option String
  | .mk t _ => t

/-- The `data` field of a content item. -/
def GsItem.data : GsItem → GsData
  | .mk _ d => d

/-- Join strings with commas (JavaScript array-to-string conversion). -/
def joinCommas : List String → String
  | [] => ""
  | [s] => s
  | s :: rest@(_ :: _) => s ++ "," ++ joinCommas rest

/-- JavaScript `String(data)` on a payload (an array of objects stringifies
each element to `[object Object]`, joined by commas). -/
def GsData.jsStr : GsData → String
  | .null => "null"
  | .str s => s
  | .arr xs => joinCommas (xs.map fun _ => "[object Object]")

/-- JavaScript truthiness of a payload. -/
def GsData.jsTruthy : GsData → Bool
  | .null => false
  | .str s => s ≠ ""
  | .arr _ => true

/-- JavaScript `String(data || '')`. -/
def GsData.jsFalsyStr (d : GsData) : String :=
  if d.jsTruthy then d.jsStr else ""

/-! ### Platform (OB11) message segments -/

/-- One OB11 segment as produced by the decoder `convertGsCoreToOB11`
(a `{ type, data }` record; the constructor fixes the `type` string and the
shape of `data`). -/
inductive OBSeg : Type where
  | text (t : String) : OBSeg
  | image (file : String) : OBSeg
  | atSeg (qq : String) : OBSeg
  | replySeg (id : String) : OBSeg
  | record (file : String) : OBSeg
  | node (userId nickname : String) (content : List OBSeg) : OBSeg

/-- One OB11 segment as consumed by the encoder `convertOB11ToGsCoreContent`
and by the reply-enrichment loop.  Attribute fields are optional because the
source guards every access with `?.` and `||`.  The `other` constructor
stands for any segment whose `type` is none of the seven handled kinds. -/
inductive OB11Seg : Type where
  | text (t : Option String) : OB11Seg
  | image (url file : Option String) : OB11Seg
  | atSeg (qq : Option String) : OB11Seg
  | replySeg (id : Option String) : OB11Seg
  | face (id : Option String) : OB11Seg
  | record (url file : Option String) : OB11Seg
  | fileSeg (name url : Option String) : OB11Seg
  | other (ty : String) (text : Option String) : OB11Seg

/-! ### Decoder: Core content → OB11 segments (`convertGsCoreToOB11`, lines 387-497) -/

/-- The `file` case (lines 430-445): split the payload at the first pipe; the
branch runs only when `indexOf` returned a positive index, so a payload with
no pipe, or with the pipe first, contributes nothing.  When the content part
starts with `link://`, that prefix is removed (JavaScript `replace` of the
first occurrence, which under the guard is the prefix). -/
def fileSegs (fileStr : String) : List OBSeg :=
  match csSplitFirst '|' fileStr.data with
  | none => []
  | some (name, rest) =>
    if name.isEmpty then []
    else
      let fileName := String.mk name
      let fileContent := String.mk rest
      if jsStartsWith fileContent "link://" then
        [.text ("[文件: " ++ fileName ++ "] " ++ jsDrop fileContent 7)]
      else
        [.text ("[文件: " ++ fileName ++ "]")]

mutual

/-- The segments one content item contributes to the decoder output
(one iteration of the `for` loop of `convertGsCoreToOB11`).  Items with a
falsy `type` or a nil payload are skipped. -/
def itemSegs : GsItem → List OBSeg
  | .mk none _ => []
  | .mk (some _) .null => []
  | .mk (some ty) d =>
    if ty = "" then []
    else if ty = "text" then [.text d.jsStr]
    else if ty = "image" then
      let imgData := d.jsStr
      if jsStartsWith imgData "base64://" then [.image imgData]
      else if jsStartsWith imgData "link://" then [.image (jsDrop imgData 7)]
      else if jsStartsWith imgData "http" then [.image imgData]
      else [.image imgData]
    else if ty = "at" then [.atSeg d.jsStr]
    else if ty = "reply" then [.replySeg d.jsStr]
    else if ty = "record" then [.record d.jsStr]
    else if ty = "file" then fileSegs d.jsStr
    else if ty = "markdown" then [.text d.jsStr]
    else if ty = "node" then
      match d with
      | .arr xs => nodeSegs xs
      | _ => []
    else if ty = "image_size" then []
    else if ty = "buttons" ∨ ty = "template_buttons" ∨ ty = "template_markdown" ∨ ty = "group" then []
    else
      match d with
      | .str s => if s.length > 0 then [.text s] else []
      | _ => []

/-- The `node` case (lines 452-474): each sub-item is decoded on its own (the
source calls `convertGsCoreToOB11` on the singleton list, which contributes
exactly the segments of that one item) and, when non-empty, wrapped as one
forwarded-message node with the fixed synthetic sender identity. -/
def nodeSegs : List GsItem → List OBSeg
  | [] => []
  | sub :: rest =>
    let s := itemSegs sub
    (if s.isEmpty then [] else [.node "3889929917" "🦊小助手" s]) ++ nodeSegs rest

end

/-- `convertGsCoreToOB11` (lines 387-497): the decoder output is the
concatenation of the contributions of the items, in order. -/
def convertGsCoreToOB11 : List GsItem → List OBSeg
  | [] => []
  | it :: rest => itemSegs it ++ convertGsCoreToOB11 rest

/-! ### Encoder: OB11 segments → Core content (`convertOB11ToGsCoreContent`, lines 255-303) -/

/-- The content items one OB11 segment contributes (one iteration of the
encoder `switch`). -/
def encodeSeg : OB11Seg → List GsItem
  | .text t => [.mk (some "text") (.str (jsOrOptStr t ""))]
  | .image url file => [.mk (some "image") (.str (jsOrOptStr url (jsOrOptStr file "")))]
  | .atSeg qq => [.mk (some "at") (.str (jsOrOptStr qq ""))]
  | .replySeg id => [.mk (some "reply") (.str (jsOrOptStr id ""))]
  | .face id => [.mk (some "text") (.str ("[表情:" ++ jsOrOptStr id "" ++ "]"))]
  | .record url file => [.mk (some "record") (.str (jsOrOptStr url (jsOrOptStr file "")))]
  | .fileSeg name url => [.mk (some "file") (.str (jsOrOptStr name "file" ++ "|" ++ jsOrOptStr url ""))]
  | .other _ text =>
    match text with
    | some t => if t = "" then [] else [.mk (some "text") (.str t)]
    | none => []

/-- The encoder loop over a segment array. -/
def encodeSegs : List OB11Seg → List GsItem
  | [] => []
  | s :: rest => encodeSeg s ++ encodeSegs rest

/-- The sender object of an inbound platform event, with the attributes the
bridge reads (`role`, `user_id`, `nickname`, `card`). -/
structure SenderInfo where
  role : Option String
  user_id : Option String
  nickname : Option String
  card : Option String

/-- An inbound OB11 message event, restricted to the fields the bridge reads.
`message = none` models an event whose `message` field is missing or not an
array; identifier fields are already stringified. -/
structure OB11Event where
  message_type : String
  message : Option (List OB11Seg)
  raw_message : String
  message_id : String
  group_id : Option String
  user_id : String
  self_id : String
  sender : Option SenderInfo

/-- `convertOB11ToGsCoreContent` (lines 255-303): with no segment array, fall
back to a single text item holding `raw_message` when that is truthy;
otherwise encode the segments in order. -/
def convertOB11ToGsCoreContent (ev : OB11Event) : List GsItem :=
  match ev.message with
  | none =>
    if ev.raw_message ≠ "" then [.mk (some "text") (.str ev.raw_message)] else []
  | some segs => encodeSegs segs

/-- The reply-enrichment loop (lines 192-206): every `image` segment of the
quoted message whose `url || file` is a string contributes an `image` item
with the trimmed URL, empty results skipped. -/
def replyImages : List OB11Seg → List GsItem
  | [] => []
  | .image url file :: rest =>
    (match jsOrOpt url file with
     | some u =>
       let u2 := jsTrim u
       if u2 ≠ "" then [.mk (some "image") (.str u2)] else []
     | none => []) ++ replyImages rest
  | _ :: rest => replyImages rest

/-- The sender object forwarded upstream (lines 233-237); unknown spread
attributes are not modelled. -/
structure GsSender where
  user_id : String
  nickname : String
deriving DecidableEq

/-- The `MessageReceive` envelope sent upstream (lines 226-240). -/
structure MessageReceive where
  bot_id : String
  bot_self_id : String
  msg_id : String
  user_type : String
  group_id : Option String
  user_id : String
  sender : Option GsSender
  user_pm : Nat
  content : List GsItem

/-- The id of the `reply` segment of the event, when the segment array exists
and contains one (lines 177-184). -/
def replyIdOf (ev : OB11Event) : Option String :=
  match (ev.message.getD []).find? (fun s => match s with | .replySeg _ => true | _ => false) with
  | some (.replySeg rid) => optTruthy rid
  | _ => none

/-- `forwardMessage` (lines 167-249), modelled as the envelope it serialises
and sends, or `none` when it returns without sending.  `status` is the
current `getStatus()` result, `selfId` is `pluginState.selfId`, and
`lookupMsg` models the external `get_msg` action: the segment array of the
quoted message, or `none` when the lookup fails or returns no array. -/
def forwardMessage (status : ConnStatus) (selfId : String)
    (lookupMsg : String → Option (List OB11Seg)) (ev : OB11Event) :
    Option MessageReceive :=
  if status ≠ .connected then none
  else if ev.message_type ≠ "group" ∧ ev.message_type ≠ "private" then none
  else
    let base := convertOB11ToGsCoreContent ev
    let content :=
      match replyIdOf ev with
      | some rid =>
        match lookupMsg rid with
        | some quotedSegs => base ++ replyImages quotedSegs
        | none => base
      | none => base
    let userType := if ev.message_type = "group" then "group" else "direct"
    let userPm : Nat :=
      match ev.sender with
      | some snd =>
        if snd.role = some "owner" then 2
        else if snd.role = some "admin" then 3
        else 6
      | none => 6
    some
      { bot_id := "onebot",
        bot_self_id := jsOrStr selfId (jsOrStr ev.self_id ""),
        msg_id := jsOrStr ev.message_id "",
        user_type := userType,
        group_id := optTruthy ev.group_id,
        user_id := ev.user_id,
        sender :=
          match ev.sender with
          | some snd =>
            some { user_id := jsOrOptStr snd.user_id ev.user_id,
                   nickname := jsOrOptStr snd.nickname (jsOrOptStr snd.card "") }
          | none => none,
        user_pm := userPm,
        content := content }

/-! ### Outbound dispatch (`handleGsCoreMessage`, lines 311-382) -/

/-- Log severities of the plugin logger. -/
inductive LogLevel : Type where
  | debug : LogLevel
  | info : LogLevel
  | warn : LogLevel
  | error : LogLevel
deriving DecidableEq

/-- One platform send call issued through `ctx.actions.call('send_msg', ...)`. -/
structure SendCall where
  message_type : String
  target : String
  message : List OBSeg

/-- The observable effects of handling one decoded envelope: the send calls
issued and the log lines emitted. -/
structure HandleOut where
  sends : List SendCall
  logs : List (LogLevel × String)

/-- The `GsCoreMessageSend` envelope received from the upstream engine
(lines 16-23). -/
structure GsCoreMessageSend where
  bot_id : String
  bot_self_id : String
  msg_id : String
  target_type : Option String
  target_id : Option String
  content : Option (List GsItem)

/-- Is the first content item a log item (`firstMsg.type &&
firstMsg.type.startsWith('log_')`)? -/
def isLogItem (it : GsItem) : Bool :=
  match it.ty with
  | some t => !(t == "") && jsStartsWith t "log_"
  | none => false

/-- The log-passthrough branch (lines 321-341): the suffix after `log_`
(JavaScript `replace` of the first occurrence, which under the `startsWith`
guard is the prefix) is lowercased and selects the severity. -/
def logPassthrough (t : String) (d : GsData) : HandleOut :=
  let level := jsToLower (jsDrop t 4)
  let logData := d.jsFalsyStr
  if level = "info" then { sends := [], logs := [(.info, "[GScore Log] " ++ logData)] }
  else if level = "warning" then { sends := [], logs := [(.warn, "[GScore Log] " ++ logData)] }
  else if level = "error" then { sends := [], logs := [(.error, "[GScore Log] " ++ logData)] }
  else if level = "success" then { sends := [], logs := [(.info, "[GScore Log] ✅ " ++ logData)] }
  else { sends := [], logs := [(.debug, "[GScore Log] [" ++ level ++ "] " ++ logData)] }

/-- `handleGsCoreMessage` (lines 311-382): drop empty envelopes, divert log
envelopes to the logger, drop envelopes without a usable `target_id` or whose
content decodes to nothing, and otherwise send privately exactly when
`target_type` is `direct` and as a group message in every other case. -/
def handleGsCoreMessage (m : GsCoreMessageSend) : HandleOut :=
  match m.content with
  | none => { sends := [], logs := [(.debug, "[GScore] 收到空消息，忽略")] }
  | some [] => { sends := [], logs := [(.debug, "[GScore] 收到空消息，忽略")] }
  | some (first :: rest) =>
    if isLogItem first then logPassthrough (first.ty.getD "") first.data
    else if optFalsy m.target_id then
      { sends := [], logs := [(.warn, "[GScore] 收到消息但没有 target_id，无法发送")] }
    else
      let tid := m.target_id.getD ""
      let ob := convertGsCoreToOB11 (first :: rest)
      if ob.isEmpty then
        { sends := [], logs := [(.debug, "[GScore] 转换后消息为空，忽略")] }
      else if m.target_type = some "direct" then
        { sends := [{ message_type := "private", target := tid, message := ob }],
          logs := [(.debug, "[GScore] 已发送私聊消息")] }
      else
        { sends := [{ message_type := "group", target := tid, message := ob }],
          logs := [(.debug, "[GScore] 已发送群消息")] }

/-! ### Spec-side URL definitions for claim C3 -/

/-- Modelled from the spec: the path component of a URL, that is the part
after the scheme and authority and before the query string and fragment
(empty when the URL has no path). -/
def urlPathOf (url : String) : String :=
  let afterScheme :=
    match csSplitFirst ':' url.data with
    | some (_, rest) =>
      match rest with
      | '/' :: '/' :: hostRest => hostRest
      | _ => rest
    | none => url.data
  let hostPath := csCutAt '?' (csCutAt '#' afterScheme)
  match csSplitFirst '/' hostPath with
  | some (_, p) => String.mk ('/' :: p)
  | none => ""

/-- Modelled from the spec wording of claim C3: the socket URL with the
routing suffix appended if and only if the URL does not already contain a
`/ws/` path segment (a `/ws/` occurrence inside the path component). -/
def specDerivedSocketUrl (cfg : PluginConfig) : String :=
  let url1 := stripTrailingSlash (jsOrStr cfg.gscoreUrl "ws://localhost:8765")
  let url2 := if jsContains (urlPathOf url1) "/ws/" then url1 else url1 ++ "/ws/napcat"
  if cfg.gscoreToken ≠ "" ∧ hasTokenParam url2 = false then
    appendTokenParam url2 cfg.gscoreToken
  else url2

/-- The amended C3 wording: as `specDerivedSocketUrl`, but the routing suffix
is appended if and only if the string `/ws/` does not occur anywhere in the
URL. -/
def amendedDerivedSocketUrl (cfg : PluginConfig) : String :=
  let url1 := stripTrailingSlash (jsOrStr cfg.gscoreUrl "ws://localhost:8765")
  let url2 := if jsContains url1 "/ws/" then url1 else url1 ++ "/ws/napcat"
  if cfg.gscoreToken ≠ "" ∧ hasTokenParam url2 = false then
    appendTokenParam url2 cfg.gscoreToken
  else url2

/-! ### Concrete configurations and states used by witnesses and counterexamples -/

/-- A configuration with the reconnect feature enabled and `maxAttempts = 3`. -/
def cfg3 : PluginConfig :=
  { gscoreEnable := true, gscoreUrl := "ws://localhost:8765", gscoreToken := "",
    maxReconnectAttempts := some 3, reconnectInterval := some 5000 }

/-- A configuration with the feature disabled. -/
def cfgDisabled : PluginConfig :=
  { gscoreEnable := false, gscoreUrl := "ws://localhost:8765", gscoreToken := "",
    maxReconnectAttempts := some 3, reconnectInterval := some 5000 }

/-- A configuration with `maxAttempts = 0` (unlimited retries). -/
def cfgUnlimited : PluginConfig :=
  { gscoreEnable := true, gscoreUrl := "ws://localhost:8765", gscoreToken := "",
    maxReconnectAttempts := some 0, reconnectInterval := some 5000 }

/-- The state right after a successful open: socket open, counter reset,
no pending timer. -/
def connectedState : ConnState :=
  { wsState := some .opened, isConnecting := false,
    reconnectTimer := none, reconnectAttempts := 0 }

/-- A disconnected state whose attempt counter has reached 3. -/
def exhaustedState : ConnState :=
  { wsState := none, isConnecting := false,
    reconnectTimer := none, reconnectAttempts := 3 }

/-- A disconnected state with a large attempt counter. -/
def manyAttemptsState : ConnState :=
  { wsState := none, isConnecting := false,
    reconnectTimer := none, reconnectAttempts := 1000 }

/-- A state holding an open socket and a pending timer (used to observe the
effects of `disconnect`). -/
def liveState : ConnState :=
  { wsState := some .opened, isConnecting := false,
    reconnectTimer := some 5000, reconnectAttempts := 2 }

/-- A configuration whose base URL contains `/ws/` only inside the query
string, not in the path. -/
def cfgQueryWs : PluginConfig :=
  { gscoreEnable := true, gscoreUrl := "ws://h?a=/ws/b", gscoreToken := "",
    maxReconnectAttempts := none, reconnectInterval := none }

/-- An inbound event whose `message` field is missing (or not an array). -/
def evNoSegs : OB11Event :=
  { message_type := "private", message := none, raw_message := "hello",
    message_id := "1", group_id := none, user_id := "42",
    self_id := "10001", sender := none }

/-- An inbound group event carrying an empty segment array together with a
non-empty `raw_message`. -/
def evEmptyArray : OB11Event :=
  { message_type := "group", message := some [], raw_message := "hello",
    message_id := "77", group_id := some "555", user_id := "42",
    self_id := "10001", sender := none }

/-- The inbound group event of the end-to-end example: `raw_message = "hello"`
and no structured segments. -/
def evHello : OB11Event :=
  { message_type := "group", message := none, raw_message := "hello",
    message_id := "77", group_id := some "555", user_id := "42",
    self_id := "10001", sender := none }

/-! ## Helper lemmas -/

theorem jsOrOptStr_some_empty (t : String) : jsOrOptStr (some t) "" = t := by
  by_cases h : t = "" <;> simp [jsOrOptStr, h]

theorem itemSegs_text (t : String) : itemSegs (.mk (some "text") (.str t)) = [.text t] := by
  simp [itemSegs, GsData.jsStr]

/-- Encoding a list of text segments and decoding the result restores the
texts, in order. -/
theorem roundtrip_texts (ts : List String) :
    convertGsCoreToOB11 (encodeSegs (ts.map fun t => OB11Seg.text (some t)))
      = ts.map OBSeg.text := by
  induction ts with
  | nil => simp [encodeSegs, convertGsCoreToOB11]
  | cons t rest ih =>
    simp only [List.map_cons, encodeSegs, encodeSeg, jsOrOptStr_some_empty,
      List.singleton_append, convertGsCoreToOB11, itemSegs_text]
    simp [ih]

theorem csSplitFirst_of_not_mem (c : Char) (l : List Char) (h : c ∉ l) :
    csSplitFirst c l = none := by
  induction l with
  | nil => rfl
  | cons a t ih =>
    simp only [List.mem_cons, not_or] at h
    simp [csSplitFirst, Ne.symm h.1, ih h.2]

theorem csSplitFirst_append_cons (c : Char) (a b : List Char) (h : c ∉ a) :
    csSplitFirst c (a ++ c :: b) = some (a, b) := by
  induction a with
  | nil => simp [csSplitFirst]
  | cons x t ih =>
    simp only [List.mem_cons, not_or] at h
    simp [csSplitFirst, Ne.symm h.1, ih h.2]

theorem string_mk_data (s : String) : String.mk s.data = s := rfl

theorem jsStartsWith_log_ne_empty (t : String) (h : jsStartsWith t "log_" = true) :
    t ≠ "" := by
  intro he
  subst he
  simp [jsStartsWith, csStartsWith] at h

/-- A log-typed first item sends the whole envelope to the logger. -/
theorem handle_log_branch (bid bsid mid : String) (tt tid : Option String)
    (t : String) (d : GsData) (rest : List GsItem)
    (hl : jsStartsWith t "log_" = true) :
    handleGsCoreMessage ⟨bid, bsid, mid, tt, tid, some (.mk (some t) d :: rest)⟩
      = logPassthrough t d := by
  have ht : t ≠ "" := jsStartsWith_log_ne_empty t hl
  simp [handleGsCoreMessage, isLogItem, GsItem.ty, GsItem.data, hl, ht]

/-- A non-log envelope with a usable target and non-empty decoded content is
dispatched as exactly one send call, private for `direct` and group
otherwise. -/
theorem handle_dispatch (bid bsid mid : String) (tt : Option String) (tid : String)
    (first : GsItem) (rest : List GsItem)
    (hlog : isLogItem first = false) (htid : tid ≠ "")
    (hob : convertGsCoreToOB11 (first :: rest) ≠ []) :
    handleGsCoreMessage ⟨bid, bsid, mid, tt, some tid, some (first :: rest)⟩
      = { sends := [{ message_type := if tt = some "direct" then "private" else "group",
                      target := tid,
                      message := convertGsCoreToOB11 (first :: rest) }],
          logs := [(.debug, if tt = some "direct" then "[GScore] 已发送私聊消息"
                            else "[GScore] 已发送群消息")] } := by
  have hie : (convertGsCoreToOB11 (first :: rest)).isEmpty = false := by
    cases hd : convertGsCoreToOB11 (first :: rest) with
    | nil => exact absurd hd hob
    | cons a l => rfl
  by_cases hd : tt = some "direct" <;>
    simp [handleGsCoreMessage, hlog, optFalsy, htid, hie, hd]

theorem csStartsWith_append (a v pat : List Char) (h : csStartsWith a pat = true) :
    csStartsWith (a ++ v) pat = true := by
  induction a generalizing pat with
  | nil =>
    cases pat with
    | nil => simp [csStartsWith]
    | cons b bs => simp [csStartsWith] at h
  | cons x xs ih =>
    cases pat with
    | nil => simp [csStartsWith]
    | cons b bs =>
      simp only [csStartsWith, Bool.and_eq_true, decide_eq_true_eq] at h ⊢
      exact ⟨h.1, ih bs h.2⟩

theorem csContainsAux_append_right (x y pat : List Char) (h : csContainsAux y pat = true) :
    csContainsAux (x ++ y) pat = true := by
  induction x with
  | nil => simpa using h
  | cons a xs ih =>
    simp only [List.cons_append, csContainsAux, Bool.or_eq_true]
    exact Or.inr ih

theorem csContainsAux_nil_pat (y : List Char) : csContainsAux y [] = true := by
  cases y with
  | nil => rfl
  | cons a t => simp [csContainsAux, csStartsWith]

theorem csContainsAux_append_left (x y pat : List Char) (h : csContainsAux x pat = true) :
    csContainsAux (x ++ y) pat = true := by
  induction x with
  | nil =>
    simp only [csContainsAux, List.isEmpty_eq_true] at h
    subst h
    simpa using csContainsAux_nil_pat y
  | cons a xs ih =>
    simp only [csContainsAux, Bool.or_eq_true] at h
    rcases h with h | h
    · simp only [List.cons_append, csContainsAux, Bool.or_eq_true]
      exact Or.inl (csStartsWith_append _ _ _ h)
    · simp only [List.cons_append, csContainsAux, Bool.or_eq_true]
      exact Or.inr (ih h)

theorem jsContains_append_left (s t pat : String) (h : jsContains s pat = true) :
    jsContains (s ++ t) pat = true := by
  unfold jsContains at h ⊢
  rw [String.data_append]
  exact csContainsAux_append_left _ _ _ h

theorem jsContains_append_right (s t pat : String) (h : jsContains t pat = true) :
    jsContains (s ++ t) pat = true := by
  unfold jsContains at h ⊢
  rw [String.data_append]
  exact csContainsAux_append_right _ _ _ h

/-- After the routing step, the URL contains `/ws/`. -/
theorem contains_ws_after_route (url1 : String) :
    jsContains (if jsContains url1 "/ws/" then url1 else url1 ++ "/ws/napcat") "/ws/" = true := by
  by_cases hc : jsContains url1 "/ws/" = true
  · simp [hc]
  · simp only [Bool.not_eq_true] at hc
    simp only [hc, Bool.false_eq_true, if_false]
    exact jsContains_append_right _ _ _ (by decide)

/-- Appending the token query parameter preserves every substring of the URL. -/
theorem contains_token_append (u tok pat : String) (h : jsContains u pat = true) :
    jsContains (appendTokenParam u tok) pat = true := by
  unfold appendTokenParam
  by_cases hq : u.data.contains '?' = true <;> simp only [hq, if_true, if_false] <;>
    exact jsContains_append_left _ _ _ (jsContains_append_left _ _ _ h)

/-- The token step preserves a `/ws/` occurrence. -/
theorem contains_after_token_step (u tok : String) (h : jsContains u "/ws/" = true) :
    jsContains (if tok ≠ "" ∧ hasTokenParam u = false then appendTokenParam u tok else u)
      "/ws/" = true := by
  split
  · exact contains_token_append _ _ _ h
  · exact h

/-- The routing and token steps together always leave `/ws/` in the URL. -/
theorem contains_ws_full (url1 tok : String) :
    jsContains
      (if tok ≠ "" ∧ hasTokenParam
            (if jsContains url1 "/ws/" then url1 else url1 ++ "/ws/napcat") = false
       then appendTokenParam
            (if jsContains url1 "/ws/" then url1 else url1 ++ "/ws/napcat") tok
       else (if jsContains url1 "/ws/" then url1 else url1 ++ "/ws/napcat"))
      "/ws/" = true :=
  contains_after_token_step _ tok (contains_ws_after_route url1)

/-! ## Claim C1 (corrected) -/

/-- Claim C1, counterexample: with `maxAttempts = 3`, after 3 consecutive
close events with no intervening successful open (the reconnect loop trace
close, timer-fire, close, timer-fire, close from a freshly connected state) a
reconnect timer IS still pending, because the attempt counter — which counts
timer firings, not close events — is only 2 at the third close.  The claim
asserts that no further reconnect timer is scheduled at that point. -/
theorem c1_three_closes_counterexample :
    (runEvs cfg3 connectedState
        [.closeEv, .fireEv, .closeEv, .fireEv, .closeEv]).reconnectTimer
      = some 5000 := rfl

/-- Claim C1 (amended): `scheduleReconnect` is a no-op when the feature is
globally disabled; when `maxAttempts > 0` and `attemptsSoFar ≥ maxAttempts`
it schedules no timer, leaves the state unchanged and reports the terminal
error; otherwise it starts a one-shot timer of the configured interval, and
a timer firing increments `attemptsSoFar` and calls `connect()` again.  When
`maxAttempts = 0` a timer is scheduled regardless of `attemptsSoFar`.  When
`maxAttempts = 3`, the reconnect loop stops at the FOURTH consecutive close
event (the close that follows the third timer firing): at that point no
further reconnect timer is pending. -/
theorem c1_schedule_reconnect_amended (cfg : PluginConfig) (st : ConnState) :
    (cfg.gscoreEnable = false →
      scheduleReconnect cfg st = { state := st, scheduled := none, terminalError := false }) ∧
    (cfg.gscoreEnable = true → 0 < maxAttemptsOf cfg → maxAttemptsOf cfg ≤ st.reconnectAttempts →
      scheduleReconnect cfg st = { state := st, scheduled := none, terminalError := true }) ∧
    (cfg.gscoreEnable = true → (maxAttemptsOf cfg = 0 ∨ st.reconnectAttempts < maxAttemptsOf cfg) →
      scheduleReconnect cfg st
        = { state := { st with reconnectTimer := some (intervalOf cfg) },
            scheduled := some (intervalOf cfg), terminalError := false }) ∧
    (∀ st2, onTimerFire cfg st2
      = connect cfg { st2 with reconnectTimer := none,
                               reconnectAttempts := st2.reconnectAttempts + 1 }) ∧
    (cfg.gscoreEnable = true → maxAttemptsOf cfg = 0 →
      (scheduleReconnect cfg st).scheduled = some (intervalOf cfg)) ∧
    (runEvs cfg3 connectedState
        [.closeEv, .fireEv, .closeEv, .fireEv, .closeEv, .fireEv, .closeEv]).reconnectTimer
      = none := by
  refine ⟨?_, ?_, ?_, fun st2 => rfl, ?_, rfl⟩
  · intro he; simp [scheduleReconnect, he]
  · intro he h1 h2; simp [scheduleReconnect, he, h1, h2]
  · intro he h
    have hg : ¬(0 < maxAttemptsOf cfg ∧ maxAttemptsOf cfg ≤ st.reconnectAttempts) := by
      rcases h with h | h <;> omega
    simp [scheduleReconnect, he, hg]
  · intro he h0
    have hg : ¬(0 < maxAttemptsOf cfg ∧ maxAttemptsOf cfg ≤ st.reconnectAttempts) := by omega
    simp [scheduleReconnect, he, hg]

/-- Witness for the amended claim C1 at concrete inputs. -/
theorem c1_schedule_reconnect_amended_witness :
    scheduleReconnect cfgDisabled connectedState
      = { state := connectedState, scheduled := none, terminalError := false } ∧
    scheduleReconnect cfg3 exhaustedState
      = { state := exhaustedState, scheduled := none, terminalError := true } ∧
    scheduleReconnect cfg3 connectedState
      = { state := { connectedState with reconnectTimer := some (intervalOf cfg3) },
          scheduled := some (intervalOf cfg3), terminalError := false } ∧
    (scheduleReconnect cfgUnlimited manyAttemptsState).scheduled
      = some (intervalOf cfgUnlimited) :=
  ⟨(c1_schedule_reconnect_amended cfgDisabled connectedState).1 rfl,
   (c1_schedule_reconnect_amended cfg3 exhaustedState).2.1 rfl (by decide) (by decide),
   (c1_schedule_reconnect_amended cfg3 connectedState).2.2.1 rfl (Or.inr (by decide)),
   (c1_schedule_reconnect_amended cfgUnlimited manyAttemptsState).2.2.2.2.1 rfl (by decide)⟩

/-! ## Claim C2 (confirmed) -/

/-- Claim C2: while the connection state is Connecting or Connected, calling
`connect()` twice in a row performs at most one transport open (in fact the
bound holds from every state: a call that opens a transport raises
`isConnecting`, which silences the next call). -/
theorem c2_connect_idempotent (cfg : PluginConfig) (st : ConnState)
    (h : getStatus st = .connecting ∨ getStatus st = .connected) :
    opensCount (connect cfg st) + opensCount (connect cfg (connect cfg st).state) ≤ 1 := by
  obtain ⟨ws, ic, rt, ra⟩ := st
  by_cases he : cfg.gscoreEnable <;> cases ic <;> rcases ws with _ | (_ | _) <;>
    simp [connect, disconnect, opensCount, he]

/-- Witness for claim C2: the connected state. -/
theorem c2_connect_idempotent_witness :
    (getStatus connectedState = .connecting ∨ getStatus connectedState = .connected) ∧
    opensCount (connect cfg3 connectedState)
      + opensCount (connect cfg3 (connect cfg3 connectedState).state) ≤ 1 :=
  ⟨Or.inr (by decide), c2_connect_idempotent cfg3 connectedState (Or.inr (by decide))⟩

/-! ## Claim C3 (corrected) -/

/-- Claim C3, counterexample: for the base URL `ws://h?a=/ws/b` the string
`/ws/` occurs only in the query, so the URL has no `/ws/` path segment and
the claim requires the routing suffix to be appended; the code checks for
the substring anywhere in the URL and therefore appends nothing. -/
theorem c3_path_segment_counterexample :
    buildWsUrl cfgQueryWs = "ws://h?a=/ws/b" ∧
    specDerivedSocketUrl cfgQueryWs = "ws://h?a=/ws/b/ws/napcat" ∧
    specDerivedSocketUrl cfgQueryWs ≠ buildWsUrl cfgQueryWs :=
  ⟨rfl, rfl, by decide⟩

/-- Claim C3 (amended): the socket URL is derived by stripping one trailing
slash, appending `/ws/napcat` if and only if the string `/ws/` does not
occur anywhere in the URL (not merely in its path component), and appending
the configured token as a `token` query parameter if and only if the token
is non-empty and the query string carries no `token` parameter; consequently
the derived URL always contains `/ws/`. -/
theorem c3_url_derivation_amended (cfg : PluginConfig) :
    buildWsUrl cfg = amendedDerivedSocketUrl cfg ∧
    jsContains (buildWsUrl cfg) "/ws/" = true := by
  constructor
  · unfold buildWsUrl amendedDerivedSocketUrl
    by_cases h : cfg.gscoreToken = "" <;> simp [jsOrStr, h]
  · exact contains_ws_full (stripTrailingSlash (jsOrStr cfg.gscoreUrl "ws://localhost:8765"))
      (jsOrStr cfg.gscoreToken "")

/-- Witness for the amended claim C3 at a concrete configuration. -/
theorem c3_url_derivation_amended_witness :
    buildWsUrl cfg3 = amendedDerivedSocketUrl cfg3 ∧
    jsContains (buildWsUrl cfg3) "/ws/" = true :=
  c3_url_derivation_amended cfg3

/-! ## Claim C4 (corrected) -/

/-- Claim C4, counterexample: the envelope whose first item has type
`log_INFO` is logged at severity info, although its suffix `INFO` is not
one of the four literals of the claim, which therefore demands debug.  The
code lowercases the suffix before matching. -/
theorem c4_log_suffix_case_counterexample :
    handleGsCoreMessage
      { bot_id := "b", bot_self_id := "s", msg_id := "m",
        target_type := some "group", target_id := some "42",
        content := some [.mk (some "log_INFO") (.str "x")] }
      = { sends := [], logs := [(.info, "[GScore Log] x")] } := rfl

/-- Claim C4 (amended): an envelope whose first content item has a kind
starting with `log_` issues no platform send call; the payload is logged at
the severity selected by the LOWERCASED suffix after `log_`: info → info,
warning → warn, error → error, success → info with a success marker, and
anything whose lowercasing is none of these → debug. -/
theorem c4_log_passthrough_amended (bid bsid mid : String) (tt tid : Option String)
    (t : String) (d : GsData) (rest : List GsItem)
    (hl : jsStartsWith t "log_" = true) :
    handleGsCoreMessage ⟨bid, bsid, mid, tt, tid, some (.mk (some t) d :: rest)⟩
      = logPassthrough t d ∧
    (handleGsCoreMessage ⟨bid, bsid, mid, tt, tid, some (.mk (some t) d :: rest)⟩).sends = [] ∧
    (jsToLower (jsDrop t 4) = "info" →
      logPassthrough t d
        = { sends := [], logs := [(.info, "[GScore Log] " ++ d.jsFalsyStr)] }) ∧
    (jsToLower (jsDrop t 4) = "warning" →
      logPassthrough t d
        = { sends := [], logs := [(.warn, "[GScore Log] " ++ d.jsFalsyStr)] }) ∧
    (jsToLower (jsDrop t 4) = "error" →
      logPassthrough t d
        = { sends := [], logs := [(.error, "[GScore Log] " ++ d.jsFalsyStr)] }) ∧
    (jsToLower (jsDrop t 4) = "success" →
      logPassthrough t d
        = { sends := [], logs := [(.info, "[GScore Log] ✅ " ++ d.jsFalsyStr)] }) ∧
    (jsToLower (jsDrop t 4) ∉ (["info", "warning", "error", "success"] : List String) →
      logPassthrough t d
        = { sends := [],
            logs := [(.debug, "[GScore Log] [" ++ jsToLower (jsDrop t 4) ++ "] "
                                ++ d.jsFalsyStr)] }) := by
  have hmain := handle_log_branch bid bsid mid tt tid t d rest hl
  refine ⟨hmain, ?_, ?_, ?_, ?_, ?_, ?_⟩
  · rw [hmain]
    unfold logPassthrough
    by_cases h1 : jsToLower (jsDrop t 4) = "info" <;>
    by_cases h2 : jsToLower (jsDrop t 4) = "warning" <;>
    by_cases h3 : jsToLower (jsDrop t 4) = "error" <;>
    by_cases h4 : jsToLower (jsDrop t 4) = "success" <;>
    simp [h1, h2, h3, h4]
  · intro h; simp [logPassthrough, h]
  · intro h; simp [logPassthrough, h]
  · intro h; simp [logPassthrough, h]
  · intro h; simp [logPassthrough, h]
  · intro h
    simp only [List.mem_cons, List.mem_singleton, not_or] at h
    obtain ⟨h1, h2, h3, h4, _⟩ := h
    simp [logPassthrough, h1, h2, h3, h4]

/-- Witness for the amended claim C4: a `log_error` envelope. -/
theorem c4_log_passthrough_amended_witness :
    (handleGsCoreMessage
      { bot_id := "b", bot_self_id := "s", msg_id := "m",
        target_type := some "group", target_id := some "1",
        content := some [.mk (some "log_error") (.str "boom")] }).sends = [] ∧
    logPassthrough "log_error" (.str "boom")
      = { sends := [],
          logs := [(.error, "[GScore Log] " ++ (GsData.str "boom").jsFalsyStr)] } :=
  ⟨(c4_log_passthrough_amended "b" "s" "m" (some "group") (some "1")
      "log_error" (.str "boom") [] (by decide)).2.1,
   (c4_log_passthrough_amended "b" "s" "m" (some "group") (some "1")
      "log_error" (.str "boom") [] (by decide)).2.2.2.2.1 (by decide)⟩

/-! ## Claim C5 (corrected) -/

/-- Claim C5, counterexample: an envelope with `targetType = "direct"`, a
target id, and non-log non-empty content consisting of one `buttons` item
(an intentionally ignored kind) decodes to no segments, and the code drops
it without the private send the claim requires. -/
theorem c5_empty_decode_counterexample :
    handleGsCoreMessage
      { bot_id := "b", bot_self_id := "s", msg_id := "m",
        target_type := some "direct", target_id := some "42",
        content := some [.mk (some "buttons") (.str "x")] }
      = { sends := [], logs := [(.debug, "[GScore] 转换后消息为空，忽略")] } := rfl

/-- Claim C5 (amended): for a decoded envelope with non-log content whose
content decodes to at least one platform segment and whose target id is
present and non-empty: `targetType = "direct"` issues a private send to the
target and every other non-null `targetType` issues a group send; an
envelope with empty (or missing) content, or with content but no usable
target id, is logged and dropped with no send call, and an envelope whose
content decodes to no segments is likewise logged and dropped. -/
theorem c5_dispatch_amended (bid bsid mid : String) (tt : Option String) (tid : String)
    (first : GsItem) (rest : List GsItem)
    (hlog : isLogItem first = false) (htid : tid ≠ "") :
    (convertGsCoreToOB11 (first :: rest) ≠ [] →
      (handleGsCoreMessage ⟨bid, bsid, mid, some "direct", some tid, some (first :: rest)⟩).sends
        = [{ message_type := "private", target := tid,
             message := convertGsCoreToOB11 (first :: rest) }]) ∧
    (∀ t2 : String, t2 ≠ "direct" → convertGsCoreToOB11 (first :: rest) ≠ [] →
      (handleGsCoreMessage ⟨bid, bsid, mid, some t2, some tid, some (first :: rest)⟩).sends
        = [{ message_type := "group", target := tid,
             message := convertGsCoreToOB11 (first :: rest) }]) ∧
    (handleGsCoreMessage ⟨bid, bsid, mid, tt, some tid, none⟩
      = { sends := [], logs := [(.debug, "[GScore] 收到空消息，忽略")] }) ∧
    (handleGsCoreMessage ⟨bid, bsid, mid, tt, some tid, some []⟩
      = { sends := [], logs := [(.debug, "[GScore] 收到空消息，忽略")] }) ∧
    (∀ tid2 : Option String, optFalsy tid2 = true →
      handleGsCoreMessage ⟨bid, bsid, mid, tt, tid2, some (first :: rest)⟩
        = { sends := [], logs := [(.warn, "[GScore] 收到消息但没有 target_id，无法发送")] }) ∧
    (convertGsCoreToOB11 (first :: rest) = [] →
      (handleGsCoreMessage ⟨bid, bsid, mid, tt, some tid, some (first :: rest)⟩).sends
        = []) := by
  refine ⟨?_, ?_, rfl, rfl, ?_, ?_⟩
  · intro hob
    rw [handle_dispatch bid bsid mid (some "direct") tid first rest hlog htid hob]
    simp
  · intro t2 ht2 hob
    rw [handle_dispatch bid bsid mid (some t2) tid first rest hlog htid hob]
    simp [ht2]
  · intro tid2 h2
    simp [handleGsCoreMessage, hlog, h2]
  · intro hempty
    simp [handleGsCoreMessage, hlog, optFalsy, htid, hempty]

/-- Witness for the amended claim C5: a direct text envelope. -/
theorem c5_dispatch_amended_witness :
    (handleGsCoreMessage
      { bot_id := "b", bot_self_id := "s", msg_id := "m",
        target_type := some "direct", target_id := some "42",
        content := some [.mk (some "text") (.str "hi")] }).sends
      = [{ message_type := "private", target := "42",
           message := convertGsCoreToOB11 [.mk (some "text") (.str "hi")] }] :=
  (c5_dispatch_amended "b" "s" "m" (some "direct") "42"
      (.mk (some "text") (.str "hi")) [] (by decide) (by decide)).1
    (by simp [convertGsCoreToOB11, itemSegs, GsData.jsStr])

/-! ## Claim C6 (corrected) -/

/-- Claim C6, counterexample: the file payload `|link://http://x/r.pdf` has
its separator at index 0; the claim requires splitting at the first pipe and
emitting a text segment, but the code requires a positive separator index
and drops the item. -/
theorem c6_leading_pipe_counterexample :
    itemSegs (.mk (some "file") (.str "|link://http://x/r.pdf")) = [] := rfl

/-- Claim C6 (amended): a `file` item whose payload has its first pipe at a
positive index splits into name and remainder; when the remainder starts
with `link://` the emitted text segment carries the name and the
de-prefixed URL, otherwise only the name; a payload with no pipe, or with
the pipe first (empty name), is dropped.  In particular the payload
`report.pdf|link://http://x/r.pdf` yields the text segment
`[文件: report.pdf] http://x/r.pdf`. -/
theorem c6_file_decode_amended (name rest payload : String)
    (hn : name ≠ "") (hp : '|' ∉ name.data) (hq : '|' ∉ payload.data) :
    (itemSegs (.mk (some "file") (.str (name ++ "|" ++ rest)))
      = (if jsStartsWith rest "link://" = true then
           [.text ("[文件: " ++ name ++ "] " ++ jsDrop rest 7)]
         else [.text ("[文件: " ++ name ++ "]")])) ∧
    itemSegs (.mk (some "file") (.str payload)) = [] ∧
    itemSegs (.mk (some "file") (.str ("|" ++ rest))) = [] ∧
    itemSegs (.mk (some "file") (.str "report.pdf|link://http://x/r.pdf"))
      = [.text "[文件: report.pdf] http://x/r.pdf"] := by
  have hdata : (name ++ "|" ++ rest).data = name.data ++ '|' :: rest.data := by
    simp [String.data_append]
  have hne : name.data ≠ [] := fun he => hn (String.ext he)
  have hie : name.data.isEmpty = false := by
    cases hd : name.data with
    | nil => exact absurd hd hne
    | cons a l => rfl
  have hpipe : (("|" : String) ++ rest).data = '|' :: rest.data := by
    rw [String.data_append]
    rfl
  refine ⟨?_, ?_, ?_, rfl⟩
  · simp [itemSegs, GsData.jsStr, fileSegs, hdata,
      csSplitFirst_append_cons _ _ _ hp, hie, string_mk_data]
  · simp [itemSegs, GsData.jsStr, fileSegs, csSplitFirst_of_not_mem _ _ hq]
  · simp [itemSegs, GsData.jsStr, fileSegs, hpipe, csSplitFirst]

/-- Witness for the amended claim C6 at the example payload. -/
theorem c6_file_decode_amended_witness :
    (itemSegs (.mk (some "file") (.str ("report.pdf" ++ "|" ++ "link://http://x/r.pdf")))
      = (if jsStartsWith "link://http://x/r.pdf" "link://" = true then
           [.text ("[文件: " ++ "report.pdf" ++ "] " ++ jsDrop "link://http://x/r.pdf" 7)]
         else [.text ("[文件: " ++ "report.pdf" ++ "]")])) ∧
    itemSegs (.mk (some "file") (.str "no-separator")) = [] :=
  ⟨(c6_file_decode_amended "report.pdf" "link://http://x/r.pdf" "no-separator"
      (by decide) (by decide) (by decide)).1,
   (c6_file_decode_amended "report.pdf" "link://http://x/r.pdf" "no-separator"
      (by decide) (by decide) (by decide)).2.1⟩

/-! ## Claim C7 (confirmed) -/

/-- Claim C7: for every platform segment sequence consisting only of `text`
segments, encoding and then decoding reproduces the original text content
exactly, in order. -/
theorem c7_text_roundtrip (ev : OB11Event) (ts : List String)
    (h : ev.message = some (ts.map fun t => OB11Seg.text (some t))) :
    convertGsCoreToOB11 (convertOB11ToGsCoreContent ev) = ts.map OBSeg.text := by
  unfold convertOB11ToGsCoreContent
  rw [h]
  exact roundtrip_texts ts

/-- Witness for claim C7: a two-segment text message. -/
theorem c7_text_roundtrip_witness :
    convertGsCoreToOB11 (convertOB11ToGsCoreContent
      { message_type := "group",
        message := some (["hi", ""].map fun t => OB11Seg.text (some t)),
        raw_message := "hi", message_id := "1", group_id := some "5",
        user_id := "u", self_id := "s", sender := none })
      = ["hi", ""].map OBSeg.text :=
  c7_text_roundtrip _ ["hi", ""] rfl

/-! ## Claim C8 (corrected) -/

/-- Claim C8, counterexample: an event whose `message` is an EMPTY segment
array has no structured segments at all and carries `raw_message = "hello"`,
yet the encoder produces no content items: the raw-text fallback only runs
when the `message` field is missing or not an array. -/
theorem c8_empty_array_counterexample :
    convertOB11ToGsCoreContent evEmptyArray = [] ∧ evEmptyArray.raw_message = "hello" :=
  ⟨rfl, rfl⟩

/-- Claim C8 (amended): when the inbound event has no structured segment
ARRAY (the `message` field is missing or not an array), the encoder falls
back to the raw-text attribute, producing exactly one text item carrying it
when it is non-empty and none otherwise; an empty segment array produces
empty content without the fallback.  In particular an inbound group message
with `raw_message = "hello"` and no segment array is forwarded with content
`[{type: "text", data: "hello"}]` and `user_type = "group"`. -/
theorem c8_raw_fallback_amended :
    (∀ ev : OB11Event, ev.message = none →
      convertOB11ToGsCoreContent ev
        = if ev.raw_message ≠ "" then [.mk (some "text") (.str ev.raw_message)] else []) ∧
    forwardMessage .connected "10001" (fun _ => none) evHello
      = some { bot_id := "onebot", bot_self_id := "10001", msg_id := "77",
               user_type := "group", group_id := some "555", user_id := "42",
               sender := none, user_pm := 6,
               content := [.mk (some "text") (.str "hello")] } := by
  constructor
  · intro ev h
    unfold convertOB11ToGsCoreContent
    rw [h]
  · rfl

/-- Witness for the amended claim C8: the fallback at a concrete event. -/
theorem c8_raw_fallback_amended_witness :
    convertOB11ToGsCoreContent evNoSegs
      = if evNoSegs.raw_message ≠ ""
        then [.mk (some "text") (.str evNoSegs.raw_message)] else [] :=
  c8_raw_fallback_amended.1 evNoSegs rfl

/-! ## Claim C9 (confirmed) -/

/-- Claim C9: when the upstream feature is disabled, `connect()` opens no
transport and performs a full disconnect: any pending reconnect timer is
cancelled, an existing socket is closed and its handle cleared, the attempt
counter is reset to 0, and the resulting status is Disconnected. -/
theorem c9_disabled_connect_disconnects (cfg : PluginConfig) (st : ConnState)
    (h : cfg.gscoreEnable = false) :
    connect cfg st
      = { state := { wsState := none, isConnecting := false,
                     reconnectTimer := none, reconnectAttempts := 0 },
          opened := none,
          closedSocket := st.wsState.isSome,
          cancelledTimer := st.reconnectTimer.isSome } ∧
    getStatus (connect cfg st).state = .disconnected := by
  constructor
  · simp [connect, disconnect, h]
  · simp [connect, disconnect, h, getStatus]

/-- Witness for claim C9: a disabled configuration applied to a state with a
live socket and a pending timer. -/
theorem c9_disabled_connect_disconnects_witness :
    connect cfgDisabled liveState
      = { state := { wsState := none, isConnecting := false,
                     reconnectTimer := none, reconnectAttempts := 0 },
          opened := none,
          closedSocket := liveState.wsState.isSome,
          cancelledTimer := liveState.reconnectTimer.isSome } ∧
    getStatus (connect cfgDisabled liveState).state = .disconnected :=
  c9_disabled_connect_disconnects cfgDisabled liveState rfl

/-! ## Claim C10 (corrected) -/

/-- Claim C10, counterexample: an envelope whose `target_id` is the empty
string — non-null, with non-log content decoding to one segment — is
dropped with a warning instead of being sent: the code treats every falsy
target id (null, undefined, or empty) as missing. -/
theorem c10_empty_target_counterexample :
    handleGsCoreMessage
      { bot_id := "b", bot_self_id := "s", msg_id := "m",
        target_type := some "group", target_id := some "",
        content := some [.mk (some "text") (.str "hi")] }
      = { sends := [], logs := [(.warn, "[GScore] 收到消息但没有 target_id，无法发送")] } := rfl

/-- Claim C10 (amended): for every decoded envelope with non-empty content
whose first item is not log-typed, whose content decodes to at least one
segment, and whose target id is non-null AND non-empty, exactly one send
call is issued — a group send for every `targetType` other than `direct`,
including null and unrecognized values, and a private send exactly when
`targetType = "direct"`. -/
theorem c10_dispatch_total_amended (bid bsid mid : String) (tt : Option String)
    (tid : String) (first : GsItem) (rest : List GsItem)
    (hlog : isLogItem first = false) (htid : tid ≠ "")
    (hob : convertGsCoreToOB11 (first :: rest) ≠ []) :
    (handleGsCoreMessage ⟨bid, bsid, mid, tt, some tid, some (first :: rest)⟩).sends
      = [{ message_type := if tt = some "direct" then "private" else "group",
           target := tid, message := convertGsCoreToOB11 (first :: rest) }] := by
  rw [handle_dispatch bid bsid mid tt tid first rest hlog htid hob]

/-- Witness for the amended claim C10: a null `targetType` is dispatched as a
group send. -/
theorem c10_dispatch_total_amended_witness :
    (handleGsCoreMessage
      { bot_id := "b", bot_self_id := "s", msg_id := "m",
        target_type := none, target_id := some "9",
        content := some [.mk (some "text") (.str "hi")] }).sends
      = [{ message_type := if (none : Option String) = some "direct" then "private" else "group",
           target := "9", message := convertGsCoreToOB11 [.mk (some "text") (.str "hi")] }] :=
  c10_dispatch_total_amended "b" "s" "m" none "9" (.mk (some "text") (.str "hi")) []
    (by decide) (by decide) (by simp [convertGsCoreToOB11, itemSegs, GsData.jsStr])

end GScore
